import Mathlib

set_option linter.unusedVariables false

namespace Tsrpc

/-! Shallow embedding of the tsrpc server dispatch core (`src/TsrpcServer.ts`).

Strings are modelled as Lean `String`, with character-level operations done on
`String.data` so every definition evaluates in the kernel.  The HTTP transport,
the body decoder (`ApiRequestExtend`), the schema validator
(`ts-interface-validator`) and user middleware are external collaborators: the
decoder is represented by an `Option` argument value, the validator by a
function parameter, middleware by nothing (it cannot change the claims here).
The response envelope writer (`ApiResponseExtend`, not under `src/`) is
modelled from the spec: `res.succ`/`res.error` serialize a success payload or
an (message, info) error pair into a uniform envelope, kept abstract as the
`Output.envSucc` / `Output.envError` constructors. -/

/-- Word character as in the JS regex class `\w`: ASCII letters, digits, underscore. -/
def isWordChar (c : Char) : Bool := c.isAlpha || c.isDigit || c == '_'

/-- Does the JS regex `Ptl(\w+)$` match starting at the head of `l`, where the
end of `l` is the end of the string?  True iff `l` begins with `Ptl` and the
remainder is a nonempty run of word characters. -/
def ptlMatchAt : List Char → Bool
  | 'P' :: 't' :: 'l' :: w => !w.isEmpty && w.all isWordChar
  | _ => false

/-- `s.replace(/Ptl(\w+)$/, '$1')` from `getPtlUrl` (TsrpcServer.ts:95): a JS
regex without the `g` flag replaces the leftmost match, so we scan left to
right and at the first position where `Ptl(\w+)$` matches we drop the three
characters `Ptl` and keep the rest. -/
def stripPtlAux : List Char → List Char
  | [] => []
  | c :: rest =>
    if ptlMatchAt (c :: rest) then rest.drop 2
    else c :: stripPtlAux rest

/-- Backslash-to-slash normalization, `.replace(/\\/g, '/')` (TsrpcServer.ts:95). -/
def slashify (c : Char) : Char := if c == '\\' then '/' else c

/-- JS `String.prototype.substr(start, length)` specialised to character lists:
take `len` characters starting at index `start` (a negative JS `length` yields
the empty string, matched here by truncated `Nat` subtraction at call sites). -/
def jsSubstrTake (l : List Char) (start len : Nat) : List Char :=
  (l.drop start).take len

/-- JS `startsWith` on our string model. -/
def strStartsWith (s pre' : String) : Bool := pre'.data.isPrefixOf s.data

/-- JS `endsWith` on our string model. -/
def strEndsWith (s suf : String) : Bool := suf.data.isSuffixOf s.data

/-- `ptl.filename.replace(/\.js$/, '.ts')` (TsrpcServer.ts:73 and :90): if the
filename ends with `.js`, the last three characters are replaced by `.ts`. -/
def normalizeJsExt (filename : String) : String :=
  if strEndsWith filename ".js" then
    String.mk (filename.data.take (filename.data.length - 3) ++ ['.', 't', 's'])
  else filename

/-- `getPtlUrl` (TsrpcServer.ts:89-96).  Returns `none` where the source throws
`'Protocol is not in the protocolPath'`.  On success: strip the protocol root
and the `.ts` suffix via `substr`, normalize backslashes to slashes, then apply
the `Ptl(\w+)$` replacement. -/
def getPtlUrl (protocolPath ptlFilename : String) : Option String :=
  let filename := normalizeJsExt ptlFilename
  if strStartsWith filename protocolPath && strEndsWith filename ".ts" then
    some (String.mk (stripPtlAux ((jsSubstrTake filename.data protocolPath.data.length
      (filename.data.length - protocolPath.data.length - 3)).map slashify)))
  else none

/-- `TsrpcPtl` descriptor: the fields of the protocol object that
`TsrpcServer` reads (a stable name and a declared source location). -/
structure Protocol where
  name : String
  filename : String
deriving DecidableEq

/-- Result of `IValidator.validate` (the validator itself is an external
collaborator, `ts-interface-validator`): an error flag plus the
`originalError.fieldName` / `originalError.message` pair read at
TsrpcServer.ts:212-214. -/
structure ValidateResult where
  isError : Bool
  fieldName : String
  message : String
deriving DecidableEq

/-- The reserved addressing field `__tsrpc_url__` inside the decoded argument
body: absent (JS `undefined`), JS `null`, or a string value. -/
inductive ReservedField
  | absent
  | nullV
  | strV (s : String)
deriving DecidableEq

/-- JS `== null` (loose equality): true for `undefined` and `null`. -/
def ReservedField.isNullish : ReservedField → Bool
  | .absent => true
  | .nullV => true
  | .strV _ => false

/-- JS truthiness of the reserved field value (`if (req.args.__tsrpc_url__)`,
TsrpcServer.ts:153): only a nonempty string is truthy. -/
def ReservedField.truthy : ReservedField → Bool
  | .strV s => !(s == "")
  | _ => false

/-- The decoded argument value of a request: the reserved `__tsrpc_url__`
field, plus the remaining fields (opaque to the dispatch core; the validator
and handler consume them). -/
structure Args where
  tsrpcUrl : ReservedField
  fields : List (String × String)
deriving DecidableEq

/-- What a handler invocation does, observed at the dispatch boundary
(TsrpcServer.ts:220-231): return normally after writing a success or error
envelope, return without writing (deferred write), or throw a typed
`TsrpcError` (message, info) or any other (untyped) value. -/
inductive HandlerBehavior
  | retSucc (payload : String)
  | retError (message info : String)
  | retNone
  | throwTyped (message info : String)
  | throwUntyped (detail : String)
deriving DecidableEq

/-- A registration entry of `_implementedUrl` (TsrpcServer.ts:54-60). -/
structure RegEntry where
  protocol : Protocol
  handler : Args → HandlerBehavior
  reqValidator : Args → ValidateResult

/-- `_implementedUrl`: a JS object keyed by rpc url, modelled as an
association list with in-place update on an existing key. -/
abbrev Registry := List (String × RegEntry)

/-- JS property read `this._implementedUrl[url]`. -/
def regLookup (reg : Registry) (url : String) : Option RegEntry :=
  (reg.find? (fun p => p.1 == url)).map Prod.snd

/-- JS property write `this._implementedUrl[url] = entry`: overwrite the
existing binding if present, otherwise add one. -/
def regSet (reg : Registry) (url : String) (e : RegEntry) : Registry :=
  match reg with
  | [] => [(url, e)]
  | (u, e0) :: rest => if u == url then (url, e) :: rest else (u, e0) :: regSet rest url e

/-- `implementPtl` (TsrpcServer.ts:66-82).  `getValidator` stands for the
external `ValidatorManager.instance.getValidator`.  Returns `none` where
`getPtlUrl` throws; otherwise the updated registry together with whether the
duplicate-registration warning was emitted. -/
def implementPtl (protocolPath : String)
    (getValidator : String → String → (Args → ValidateResult))
    (reg : Registry) (ptl : Protocol) (handler : Args → HandlerBehavior) :
    Option (Registry × Bool) :=
  match getPtlUrl protocolPath ptl.filename with
  | none => none
  | some url =>
    let warned := (regLookup reg url).isSome
    let reqValidator := getValidator ("Req" ++ ptl.name) (normalizeJsExt ptl.filename)
    some (regSet reg url ⟨ptl, handler, reqValidator⟩, warned)

/-- The configuration fields the dispatch pipeline reads. -/
structure ServerConfig where
  hideApiPath : Bool
  urlRootPath : String
  showParamInvalidReason : Bool
deriving DecidableEq

/-- The request/response state produced by the addressing middleware
(TsrpcServer.ts:135-179) and consumed by the final api handler: the (possibly
mutated) decoded arguments, the `apiPreCheckError` tag `[message, info]`, and
the resolved `req.rpcUrl`.  `req.rpcPtl` is recovered by the final handler via
`regLookup` on `rpcUrl` (the source sets it from the same lookup at line 177
and the registry does not change during a request). -/
structure PipelineState where
  args : Option Args
  apiPreCheckError : Option (String × String)
  rpcUrl : Option String
deriving DecidableEq

/-- The addressing middleware (TsrpcServer.ts:135-179).  With no decoded args
it just calls `next()`; in `hideApiPath` mode the reserved field must be
non-nullish and becomes `rpcUrl` (and is deleted from the args), an empty url
then failing the `!req.rpcUrl` check at line 170; in path mode a truthy
reserved field is a mismatch, otherwise the url is the request path with the
url root stripped and a leading `/` prepended (that url is nonempty, so the
line-170 check cannot fire on this branch). -/
def addressingResolve (cfg : ServerConfig) (reqPath : String) (args? : Option Args) :
    PipelineState :=
  match args? with
  | none => ⟨none, none, none⟩
  | some args =>
    if cfg.hideApiPath then
      match args.tsrpcUrl with
      | .absent | .nullV =>
        ⟨some args,
         some ("HideApiPath is enabled, set it to true too in your client config.",
               "REQ_CANT_BE_RESOLVED"), none⟩
      | .strV u =>
        if u == "" then
          ⟨some { args with tsrpcUrl := .absent },
           some ("Request cannot be resolved", "REQ_CANT_BE_RESOLVED"), some u⟩
        else
          ⟨some { args with tsrpcUrl := .absent }, none, some u⟩
    else
      if args.tsrpcUrl.truthy then
        ⟨some args,
         some ("HideApiPath is disabled, set it to false too in your client config.",
               "REQ_CANT_BE_RESOLVED"), none⟩
      else if strStartsWith reqPath cfg.urlRootPath then
        ⟨some args, none, some (String.mk ('/' :: reqPath.data.drop cfg.urlRootPath.data.length))⟩
      else
        ⟨some args, some ("Invalid path", "INVALID_PATH"), none⟩

/-- What the pipeline writes to the transport: a raw non-envelope payload
(`res.status(400).send('Invalid Request Body')`), or an envelope written by
the envelope writer.  Modelled from the spec: `res.succ(payload)` /
`res.error(message, info)` (`ApiResponseExtend`, not under `src/`) serialize a
success payload or an error (message, info) pair into the uniform wire
envelope. -/
inductive Output
  | raw (status : Nat) (body : String)
  | envSucc (payload : String)
  | envError (message : String) (info : String)
deriving DecidableEq

/-- `onPtlNotFound` default hook (TsrpcServer.ts:284-286). -/
def onPtlNotFound : Output := .envError "404 Not Found" "PTL_NOT_FOUND"

/-- `onUnhandledApiError` default hook (TsrpcServer.ts:287-290): logs the error
server-side and emits a constant envelope that does not depend on the thrown
value. -/
def onUnhandledApiError (e : String) : Output :=
  .envError "Internal Server Error" "UNHANDLED_API_ERROR"

/-- Observable result of a request: what (if anything) the pipeline wrote,
whether the registered handler was invoked, and whether the `onApiComplete`
completion hook fires (would be invoked, when one is set). -/
structure DispatchResult where
  output : Option Output
  handlerInvoked : Bool
  completeFired : Bool
deriving DecidableEq

/-- The final api handler (TsrpcServer.ts:185-235), in source order: missing
args → raw 400; `apiPreCheckError` → that error; no registered protocol →
`onPtlNotFound`; validation failure → `INVALID_REQ_PARAM` (detail governed by
`showParamInvalidReason`); otherwise the handler runs inside try/catch (a
typed `TsrpcError` is forwarded as `res.error(e.message, e.info)`, anything
else goes to `onUnhandledApiError`) and the completion hook fires. -/
def finalApiHandler (cfg : ServerConfig) (reg : Registry) (st : PipelineState) :
    DispatchResult :=
  match st.args with
  | none => ⟨some (.raw 400 "Invalid Request Body"), false, false⟩
  | some args =>
    match st.apiPreCheckError with
    | some (msg, info) => ⟨some (.envError msg info), false, false⟩
    | none =>
      match st.rpcUrl.bind (regLookup reg) with
      | none => ⟨some onPtlNotFound, false, false⟩
      | some entry =>
        if (entry.reqValidator args).isError then
          ⟨some (.envError
            (if cfg.showParamInvalidReason then
              (entry.reqValidator args).fieldName ++ ": " ++ (entry.reqValidator args).message
             else "Invalid Request Parameter") "INVALID_REQ_PARAM"), false, false⟩
        else
          match entry.handler args with
          | .retSucc p => ⟨some (.envSucc p), true, true⟩
          | .retError m i => ⟨some (.envError m i), true, true⟩
          | .retNone => ⟨none, true, true⟩
          | .throwTyped m i => ⟨some (.envError m i), true, true⟩
          | .throwUntyped d => ⟨some (onUnhandledApiError d), true, true⟩

/-- One request through the dispatch pipeline: body decode result in, the
addressing middleware, then the final api handler. -/
def processRequest (cfg : ServerConfig) (reg : Registry) (reqPath : String)
    (body : Option Args) : DispatchResult :=
  finalApiHandler cfg reg (addressingResolve cfg reqPath body)

/-- Is an output a well-formed success/error envelope (as opposed to a raw
transport payload)? -/
def isEnvelope : Output → Bool
  | .raw _ _ => false
  | .envSucc _ => true
  | .envError _ _ => true

/-- Is an output an error envelope with info code `REQ_CANT_BE_RESOLVED`? -/
def isReqCantBeResolved : Option Output → Bool
  | some (.envError _ "REQ_CANT_BE_RESOLVED") => true
  | _ => false

/-- `.ts`-suffix removal as the spec words it: drop the three suffix
characters from the end. -/
def dropTsSuffix (l : List Char) : List Char := l.take (l.length - 3)

/-- Index of the first (leftmost) position at which `Ptl(\w+)$` matches. -/
def firstPtlIdx (l : List Char) : Option Nat :=
  (List.range l.length).find? (fun i => ptlMatchAt (l.drop i))

/-- Index-based formulation of the `Ptl(\w+)$` replacement at its first
(leftmost) match: keep everything before the match, drop the three `Ptl`
characters, keep the captured word characters. -/
def stripPtlSpec (l : List Char) : List Char :=
  match firstPtlIdx l with
  | none => l
  | some i => l.take i ++ l.drop (i + 3)

/-- Index of the last position at which `Ptl(\w+)$` matches. -/
def lastPtlIdx (l : List Char) : Option Nat :=
  (List.range l.length).reverse.find? (fun i => ptlMatchAt (l.drop i))

/-- `Ptl` replacement at its last such occurrence (the reading claimed by the
spec sentence under test, not what the source regex does). -/
def stripPtlLast (l : List Char) : List Char :=
  match lastPtlIdx l with
  | none => l
  | some i => l.take i ++ l.drop (i + 3)

/-- Path resolution as the claim words it, with first-occurrence `Ptl`
stripping: require root prefix and `.ts` suffix (after `.js` normalization),
strip both, normalize backslashes, strip `Ptl` at its first occurrence that is
followed by one or more word characters extending to the end of the path. -/
def resolveSpecFirst (root loc : String) : Option String :=
  let norm := normalizeJsExt loc
  if strStartsWith norm root && strEndsWith norm ".ts" then
    some (String.mk (stripPtlSpec ((dropTsSuffix (norm.data.drop root.data.length)).map slashify)))
  else none

/-- Same algorithm but stripping `Ptl` at its last qualifying occurrence. -/
def resolveSpecLast (root loc : String) : Option String :=
  let norm := normalizeJsExt loc
  if strStartsWith norm root && strEndsWith norm ".ts" then
    some (String.mk (stripPtlLast ((dropTsSuffix (norm.data.drop root.data.length)).map slashify)))
  else none

/-- Remove a leading `Ptl` token from a path segment, when it is a leading
token of the segment: the literal reading of the claim under test. -/
def stripLeadPtl : List Char → List Char
  | 'P' :: 't' :: 'l' :: rest => rest
  | l => l

/-- Apply `stripLeadPtl` to the final `/`-separated segment of a path. -/
def stripLeadPtlFinalSeg : List Char → List Char
  | [] => stripLeadPtl []
  | c :: rest =>
    if (c :: rest).contains '/' then c :: stripLeadPtlFinalSeg rest
    else stripLeadPtl (c :: rest)

/-- Path resolution as the claim under test literally words it: strip the root
and the suffix, normalize backslashes, then strip the `Ptl` token only as a
leading name-prefix of the final path segment. -/
def resolveSpecNamePrefixOnly (root loc : String) : Option String :=
  if strStartsWith loc root && strEndsWith loc ".ts" then
    some (String.mk (stripLeadPtlFinalSeg ((dropTsSuffix (loc.data.drop root.data.length)).map slashify)))
  else none

/-! Concrete fixtures used by witnesses and counterexamples. -/

/-- A validator that accepts every argument value. -/
def validatorOk : Args → ValidateResult := fun _ => ⟨false, "", ""⟩

/-- A validator that rejects every argument value. -/
def validatorBad : Args → ValidateResult := fun _ => ⟨true, "name", "expected string"⟩

/-- A handler that writes a success envelope and returns. -/
def handlerHello : Args → HandlerBehavior := fun _ => .retSucc "Hello, world!"

/-- A handler that throws a typed `TsrpcError`. -/
def handlerThrowTyped : Args → HandlerBehavior := fun _ => .throwTyped "TsrpcError" "TsrpcError"

/-- A handler that throws an untyped error with one internal detail. -/
def handlerThrowUntypedA : Args → HandlerBehavior := fun _ => .throwUntyped "Error: secret stack"

/-- A handler that throws an untyped error with another internal detail. -/
def handlerThrowUntypedB : Args → HandlerBehavior := fun _ => .throwUntyped "TypeError: other leak"

/-- The HelloWorld protocol descriptor. -/
def ptlHello : Protocol := ⟨"Hello", "/p/PtlHello.ts"⟩

/-- Registration entry for `/Hello` with the successful handler. -/
def entryHello : RegEntry := ⟨ptlHello, handlerHello, validatorOk⟩

/-- Registration entry for `/Hello` with the typed-throwing handler. -/
def entryTyped : RegEntry := ⟨ptlHello, handlerThrowTyped, validatorOk⟩

/-- Registration entry for `/Hello` with one untyped-throwing handler. -/
def entryUntypedA : RegEntry := ⟨ptlHello, handlerThrowUntypedA, validatorOk⟩

/-- Registration entry for `/Hello` with the other untyped-throwing handler. -/
def entryUntypedB : RegEntry := ⟨ptlHello, handlerThrowUntypedB, validatorOk⟩

/-- Registration entry for `/Hello` with the rejecting validator. -/
def entryBadVal : RegEntry := ⟨ptlHello, handlerHello, validatorBad⟩

/-- A registry with the `/Hello` success entry. -/
def regHello : Registry := [("/Hello", entryHello)]

/-- Path-addressed server configuration with url root `/`. -/
def cfgPathMode : ServerConfig := ⟨false, "/", false⟩

/-- Field-addressed (`hideApiPath`) server configuration. -/
def cfgFieldMode : ServerConfig := ⟨true, "/", false⟩

/-- Sample decoded arguments without the reserved field. -/
def argsWorld : Args := ⟨.absent, [("name", "world")]⟩

/-- A concrete stand-in for the external `ValidatorManager.getValidator`. -/
def gvOk : String → String → Args → ValidateResult := fun _ _ _ => ⟨false, "", ""⟩

/-- A second descriptor resolving to the same url as `ptlHello` (its `.js`
location normalizes to the same `.ts` filename). -/
def ptlDupB : Protocol := ⟨"Hello", "/p/PtlHello.js"⟩

/-- The entry created by registering `ptlHello` through `implementPtl`. -/
def entryDupA : RegEntry := ⟨ptlHello, handlerHello, gvOk "ReqHello" "/p/PtlHello.ts"⟩

/-- The entry created by registering `ptlDupB` through `implementPtl`. -/
def entryDupB : RegEntry := ⟨ptlDupB, handlerThrowTyped, gvOk "ReqHello" "/p/PtlHello.ts"⟩

/-! Helper lemmas. -/

theorem firstPtlIdx_cons (c : Char) (rest : List Char) :
    firstPtlIdx (c :: rest)
      = if ptlMatchAt (c :: rest) then some 0
        else (firstPtlIdx rest).map Nat.succ := by
  unfold firstPtlIdx
  have hlen : (c :: rest).length = rest.length + 1 := rfl
  rw [hlen, List.range_succ_eq_map, List.find?_cons]
  cases h : ptlMatchAt (c :: rest) with
  | true => simp [h]
  | false =>
    simp only [List.drop_zero, h, if_false]
    rw [List.find?_map]
    rfl

theorem stripPtlAux_eq_spec (l : List Char) : stripPtlAux l = stripPtlSpec l := by
  induction l with
  | nil => rfl
  | cons c rest ih =>
    rw [stripPtlAux, stripPtlSpec, firstPtlIdx_cons]
    cases h : ptlMatchAt (c :: rest) with
    | true => simp [h]
    | false =>
      simp only [h, if_false, Bool.false_eq_true, if_neg]
      rw [ih, stripPtlSpec]
      cases hf : firstPtlIdx rest with
      | none => simp
      | some i =>
        simp only [Option.map_some']
        rw [List.take_succ_cons]
        have h4 : (i + 1) + 3 = (i + 3) + 1 := by omega
        rw [h4, List.drop_succ_cons]
        simp

theorem regLookup_regSet_self (reg : Registry) (url : String) (e : RegEntry) :
    regLookup (regSet reg url e) url = some e := by
  induction reg with
  | nil => simp [regSet, regLookup, List.find?]
  | cons p rest ih =>
    obtain ⟨u, e0⟩ := p
    cases h : u == url with
    | true => simp [regSet, h, regLookup, List.find?]
    | false =>
      simp only [regSet, h, if_false, Bool.false_eq_true, if_neg]
      simpa [regLookup, List.find?_cons, h] using ih

theorem getPtlUrl_eq_resolveSpecFirst (root loc : String) :
    getPtlUrl root loc = resolveSpecFirst root loc := by
  unfold getPtlUrl resolveSpecFirst
  cases h : (strStartsWith (normalizeJsExt loc) root && strEndsWith (normalizeJsExt loc) ".ts") with
  | false => simp [h]
  | true =>
    simp only [h, if_true]
    rw [stripPtlAux_eq_spec]
    unfold jsSubstrTake dropTsSuffix
    rw [List.length_drop]

theorem addressingResolve_args_ne_none (cfg : ServerConfig) (reqPath : String) (args : Args) :
    (addressingResolve cfg reqPath (some args)).args ≠ none := by
  obtain ⟨hide, root, sp⟩ := cfg
  obtain ⟨tu, fl⟩ := args
  cases hide <;> rcases tu with _ | _ | u <;>
    simp only [addressingResolve, ReservedField.truthy] <;>
    (repeat' split) <;> simp

theorem finalApiHandler_args_none (cfg : ServerConfig) (reg : Registry) (st : PipelineState)
    (h : st.args = none) :
    finalApiHandler cfg reg st = ⟨some (.raw 400 "Invalid Request Body"), false, false⟩ := by
  obtain ⟨a?, pre?, url?⟩ := st
  replace h : a? = none := h
  subst h
  rfl

theorem finalApiHandler_precheck (cfg : ServerConfig) (reg : Registry) (st : PipelineState)
    (args : Args) (msg info : String)
    (h1 : st.args = some args) (h2 : st.apiPreCheckError = some (msg, info)) :
    finalApiHandler cfg reg st = ⟨some (.envError msg info), false, false⟩ := by
  obtain ⟨a?, pre?, url?⟩ := st
  replace h1 : a? = some args := h1
  replace h2 : pre? = some (msg, info) := h2
  subst h1
  subst h2
  rfl

theorem finalApiHandler_notfound (cfg : ServerConfig) (reg : Registry) (st : PipelineState)
    (args : Args)
    (h1 : st.args = some args) (h2 : st.apiPreCheckError = none)
    (h3 : st.rpcUrl.bind (regLookup reg) = none) :
    finalApiHandler cfg reg st = ⟨some onPtlNotFound, false, false⟩ := by
  obtain ⟨a?, pre?, url?⟩ := st
  replace h1 : a? = some args := h1
  replace h2 : pre? = none := h2
  subst h1
  subst h2
  simp only at h3
  simp [finalApiHandler, h3]

theorem finalApiHandler_invalid_param (cfg : ServerConfig) (reg : Registry) (st : PipelineState)
    (args : Args) (entry : RegEntry)
    (h1 : st.args = some args) (h2 : st.apiPreCheckError = none)
    (h3 : st.rpcUrl.bind (regLookup reg) = some entry)
    (h4 : (entry.reqValidator args).isError = true) :
    finalApiHandler cfg reg st = ⟨some (.envError
      (if cfg.showParamInvalidReason then
        (entry.reqValidator args).fieldName ++ ": " ++ (entry.reqValidator args).message
       else "Invalid Request Parameter") "INVALID_REQ_PARAM"), false, false⟩ := by
  obtain ⟨a?, pre?, url?⟩ := st
  replace h1 : a? = some args := h1
  replace h2 : pre? = none := h2
  subst h1
  subst h2
  simp only at h3
  simp [finalApiHandler, h3, h4]

theorem finalApiHandler_dispatch_eq (cfg : ServerConfig) (reg : Registry) (st : PipelineState)
    (args : Args) (entry : RegEntry)
    (h1 : st.args = some args) (h2 : st.apiPreCheckError = none)
    (h3 : st.rpcUrl.bind (regLookup reg) = some entry)
    (h4 : (entry.reqValidator args).isError = false) :
    finalApiHandler cfg reg st =
      ⟨match entry.handler args with
       | .retSucc p => some (.envSucc p)
       | .retError m i => some (.envError m i)
       | .retNone => none
       | .throwTyped m i => some (.envError m i)
       | .throwUntyped d => some (onUnhandledApiError d), true, true⟩ := by
  obtain ⟨a?, pre?, url?⟩ := st
  replace h1 : a? = some args := h1
  replace h2 : pre? = none := h2
  subst h1
  subst h2
  simp only at h3
  rcases hb : entry.handler args <;> simp [finalApiHandler, h3, h4, hb]

theorem finalApiHandler_output_envelope (cfg : ServerConfig) (reg : Registry)
    (st : PipelineState) (args : Args) (hargs : st.args = some args)
    (o : Output) (ho : (finalApiHandler cfg reg st).output = some o) :
    isEnvelope o = true := by
  obtain ⟨a?, pre?, url?⟩ := st
  replace hargs : a? = some args := hargs
  subst hargs
  rcases pre? with _ | ⟨m, i⟩
  · rcases hurl : url?.bind (regLookup reg) with _ | entry
    · simp [finalApiHandler, hurl, onPtlNotFound] at ho
      subst ho
      rfl
    · rcases hval : (entry.reqValidator args).isError with _ | _
      · rcases hb : entry.handler args with p | ⟨m, i⟩ | _ | ⟨m, i⟩ | d <;>
          simp [finalApiHandler, hurl, hval, hb, onUnhandledApiError] at ho <;>
          subst ho <;> rfl
      · simp [finalApiHandler, hurl, hval] at ho
        subst ho
        rfl
  · simp [finalApiHandler] at ho
    subst ho
    rfl

theorem finalApiHandler_complete_eq_invoked (cfg : ServerConfig) (reg : Registry)
    (st : PipelineState) :
    (finalApiHandler cfg reg st).completeFired = (finalApiHandler cfg reg st).handlerInvoked := by
  obtain ⟨a?, pre?, url?⟩ := st
  rcases a? with _ | args
  · rfl
  · rcases pre? with _ | ⟨m, i⟩
    · rcases hurl : url?.bind (regLookup reg) with _ | entry
      · simp [finalApiHandler, hurl]
      · rcases hval : (entry.reqValidator args).isError with _ | _
        · rcases hb : entry.handler args <;> simp [finalApiHandler, hurl, hval, hb]
        · simp [finalApiHandler, hurl, hval]
    · rfl

/-! Claim theorems. -/

/-- C1: the final api handler evaluates its pre-dispatch terminal conditions
in fixed priority order with first match winning: (a) missing decoded args
produce the raw 400 bad-request outcome regardless of everything else; (b)
otherwise a pending `apiPreCheckError` is sent as that specific error; (c)
otherwise an unmatched path produces the `PTL_NOT_FOUND` outcome of the
overridable `onPtlNotFound` hook; (d) otherwise a validation failure produces
an `INVALID_REQ_PARAM` error; and only when none of these hold is the handler
invoked. -/
theorem c1_predispatch_priority (cfg : ServerConfig) (reg : Registry) (st : PipelineState) :
    (st.args = none →
      finalApiHandler cfg reg st = ⟨some (.raw 400 "Invalid Request Body"), false, false⟩)
  ∧ (∀ args msg info, st.args = some args → st.apiPreCheckError = some (msg, info) →
      finalApiHandler cfg reg st = ⟨some (.envError msg info), false, false⟩)
  ∧ (∀ args, st.args = some args → st.apiPreCheckError = none →
      st.rpcUrl.bind (regLookup reg) = none →
      finalApiHandler cfg reg st = ⟨some onPtlNotFound, false, false⟩)
  ∧ (∀ args entry, st.args = some args → st.apiPreCheckError = none →
      st.rpcUrl.bind (regLookup reg) = some entry →
      (entry.reqValidator args).isError = true →
      finalApiHandler cfg reg st = ⟨some (.envError
        (if cfg.showParamInvalidReason then
          (entry.reqValidator args).fieldName ++ ": " ++ (entry.reqValidator args).message
         else "Invalid Request Parameter") "INVALID_REQ_PARAM"), false, false⟩)
  ∧ (∀ args entry, st.args = some args → st.apiPreCheckError = none →
      st.rpcUrl.bind (regLookup reg) = some entry →
      (entry.reqValidator args).isError = false →
      (finalApiHandler cfg reg st).handlerInvoked = true) := by
  refine ⟨fun h => finalApiHandler_args_none cfg reg st h,
          fun args msg info h1 h2 => finalApiHandler_precheck cfg reg st args msg info h1 h2,
          fun args h1 h2 h3 => finalApiHandler_notfound cfg reg st args h1 h2 h3,
          fun args entry h1 h2 h3 h4 =>
            finalApiHandler_invalid_param cfg reg st args entry h1 h2 h3 h4,
          fun args entry h1 h2 h3 h4 => ?_⟩
  rw [finalApiHandler_dispatch_eq cfg reg st args entry h1 h2 h3 h4]

/-- C1 witness: each of the five priority cases at a concrete input. -/
theorem c1_predispatch_priority_witness :
    finalApiHandler cfgPathMode regHello ⟨none, none, none⟩
      = ⟨some (.raw 400 "Invalid Request Body"), false, false⟩
  ∧ finalApiHandler cfgPathMode regHello ⟨some argsWorld, some ("Invalid path", "INVALID_PATH"), none⟩
      = ⟨some (.envError "Invalid path" "INVALID_PATH"), false, false⟩
  ∧ finalApiHandler cfgPathMode regHello ⟨some argsWorld, none, some "/Nope"⟩
      = ⟨some onPtlNotFound, false, false⟩
  ∧ finalApiHandler cfgPathMode [("/Hello", entryBadVal)] ⟨some argsWorld, none, some "/Hello"⟩
      = ⟨some (.envError "Invalid Request Parameter" "INVALID_REQ_PARAM"), false, false⟩
  ∧ (finalApiHandler cfgPathMode regHello ⟨some argsWorld, none, some "/Hello"⟩).handlerInvoked
      = true := by
  refine ⟨(c1_predispatch_priority cfgPathMode regHello _).1 rfl,
          (c1_predispatch_priority cfgPathMode regHello _).2.1 argsWorld _ _ rfl rfl,
          (c1_predispatch_priority cfgPathMode regHello _).2.2.1 argsWorld rfl rfl rfl,
          (c1_predispatch_priority cfgPathMode [("/Hello", entryBadVal)] _).2.2.2.1
            argsWorld entryBadVal rfl rfl rfl rfl,
          (c1_predispatch_priority cfgPathMode regHello _).2.2.2.2
            argsWorld entryHello rfl rfl rfl rfl⟩

/-- C2: a handler that throws an untyped error always yields the constant
generic envelope (message `Internal Server Error`, code
`UNHANDLED_API_ERROR`): the output does not depend on the thrown detail, so
any two untyped errors are indistinguishable to the client and no part of the
thrown content appears in the response. -/
theorem c2_untyped_error_never_leaks
    (cfg₁ cfg₂ : ServerConfig) (reg₁ reg₂ : Registry) (st₁ st₂ : PipelineState)
    (args₁ args₂ : Args) (entry₁ entry₂ : RegEntry) (d₁ d₂ : String)
    (hargs₁ : st₁.args = some args₁) (hpre₁ : st₁.apiPreCheckError = none)
    (hent₁ : st₁.rpcUrl.bind (regLookup reg₁) = some entry₁)
    (hval₁ : (entry₁.reqValidator args₁).isError = false)
    (hb₁ : entry₁.handler args₁ = .throwUntyped d₁)
    (hargs₂ : st₂.args = some args₂) (hpre₂ : st₂.apiPreCheckError = none)
    (hent₂ : st₂.rpcUrl.bind (regLookup reg₂) = some entry₂)
    (hval₂ : (entry₂.reqValidator args₂).isError = false)
    (hb₂ : entry₂.handler args₂ = .throwUntyped d₂) :
    (finalApiHandler cfg₁ reg₁ st₁).output
      = some (.envError "Internal Server Error" "UNHANDLED_API_ERROR")
  ∧ (finalApiHandler cfg₁ reg₁ st₁).output = (finalApiHandler cfg₂ reg₂ st₂).output := by
  have r₁ := finalApiHandler_dispatch_eq cfg₁ reg₁ st₁ args₁ entry₁ hargs₁ hpre₁ hent₁ hval₁
  have r₂ := finalApiHandler_dispatch_eq cfg₂ reg₂ st₂ args₂ entry₂ hargs₂ hpre₂ hent₂ hval₂
  rw [hb₁] at r₁
  rw [hb₂] at r₂
  rw [r₁, r₂]
  exact ⟨rfl, rfl⟩

/-- C2 witness: two different untyped throws at concrete inputs. -/
theorem c2_untyped_error_never_leaks_witness :
    (finalApiHandler cfgPathMode [("/Hello", entryUntypedA)]
        ⟨some argsWorld, none, some "/Hello"⟩).output
      = some (.envError "Internal Server Error" "UNHANDLED_API_ERROR")
  ∧ (finalApiHandler cfgPathMode [("/Hello", entryUntypedA)]
        ⟨some argsWorld, none, some "/Hello"⟩).output
      = (finalApiHandler cfgFieldMode [("/Hello", entryUntypedB)]
          ⟨some argsWorld, none, some "/Hello"⟩).output :=
  c2_untyped_error_never_leaks cfgPathMode cfgFieldMode
    [("/Hello", entryUntypedA)] [("/Hello", entryUntypedB)]
    ⟨some argsWorld, none, some "/Hello"⟩ ⟨some argsWorld, none, some "/Hello"⟩
    argsWorld argsWorld entryUntypedA entryUntypedB
    "Error: secret stack" "TypeError: other leak"
    rfl rfl rfl rfl rfl rfl rfl rfl rfl rfl

/-- C3: a handler that throws a typed `TsrpcError` with message `m` and info
`i` yields a client error envelope with exactly that message and info,
unaltered by the dispatcher. -/
theorem c3_typed_error_verbatim (cfg : ServerConfig) (reg : Registry) (st : PipelineState)
    (args : Args) (entry : RegEntry) (m i : String)
    (hargs : st.args = some args) (hpre : st.apiPreCheckError = none)
    (hent : st.rpcUrl.bind (regLookup reg) = some entry)
    (hval : (entry.reqValidator args).isError = false)
    (hb : entry.handler args = .throwTyped m i) :
    (finalApiHandler cfg reg st).output = some (.envError m i) := by
  have r := finalApiHandler_dispatch_eq cfg reg st args entry hargs hpre hent hval
  rw [hb] at r
  rw [r]

/-- C3 witness: the typed-throwing handler at a concrete input. -/
theorem c3_typed_error_verbatim_witness :
    (finalApiHandler cfgPathMode [("/Hello", entryTyped)]
        ⟨some argsWorld, none, some "/Hello"⟩).output
      = some (.envError "TsrpcError" "TsrpcError") :=
  c3_typed_error_verbatim cfgPathMode [("/Hello", entryTyped)]
    ⟨some argsWorld, none, some "/Hello"⟩ argsWorld entryTyped
    "TsrpcError" "TsrpcError" rfl rfl rfl rfl rfl

/-- C4 counterexample: in path-addressed mode a request whose decoded body
contains the reserved field with the (falsy) value `""` is present but does
not produce `REQ_CANT_BE_RESOLVED`; the pipeline proceeds with path
resolution and (here, with an empty registry) ends in `PTL_NOT_FOUND`. -/
theorem c4_counterexample :
    (processRequest cfgPathMode [] "/Hello" (some ⟨.strV "", [("name", "world")]⟩)).output
      = some (.envError "404 Not Found" "PTL_NOT_FOUND")
  ∧ isReqCantBeResolved ((processRequest cfgPathMode [] "/Hello"
      (some ⟨.strV "", [("name", "world")]⟩)).output) = false :=
  ⟨rfl, rfl⟩

/-- C4 (amended): with a decoded body, field-addressed mode with the reserved
field absent yields the `REQ_CANT_BE_RESOLVED` error, and path-addressed mode
with the reserved field present with a truthy value (a non-empty string)
yields the `REQ_CANT_BE_RESOLVED` error, regardless of the rest of the
payload, the path, and the registry. -/
theorem c4_addressing_mismatch (cfg : ServerConfig) (reg : Registry) (reqPath : String)
    (args : Args) :
    (cfg.hideApiPath = true → args.tsrpcUrl = .absent →
      (processRequest cfg reg reqPath (some args)).output
        = some (.envError "HideApiPath is enabled, set it to true too in your client config."
            "REQ_CANT_BE_RESOLVED"))
  ∧ (cfg.hideApiPath = false → args.tsrpcUrl.truthy = true →
      (processRequest cfg reg reqPath (some args)).output
        = some (.envError "HideApiPath is disabled, set it to false too in your client config."
            "REQ_CANT_BE_RESOLVED")) := by
  obtain ⟨hide, root, sp⟩ := cfg
  obtain ⟨tu, fl⟩ := args
  constructor
  · intro h1 h2
    replace h1 : hide = true := h1
    replace h2 : tu = .absent := h2
    subst h1
    subst h2
    rfl
  · intro h1 h2
    replace h1 : hide = false := h1
    replace h2 : ReservedField.truthy tu = true := h2
    subst h1
    unfold processRequest addressingResolve
    simp only [h2, if_true]
    rfl

/-- C4 witness: both mismatch directions at concrete inputs. -/
theorem c4_addressing_mismatch_witness :
    (processRequest cfgFieldMode regHello "/x" (some ⟨.absent, [("name", "world")]⟩)).output
      = some (.envError "HideApiPath is enabled, set it to true too in your client config."
          "REQ_CANT_BE_RESOLVED")
  ∧ (processRequest cfgPathMode regHello "/Hello" (some ⟨.strV "/Other", [("name", "world")]⟩)).output
      = some (.envError "HideApiPath is disabled, set it to false too in your client config."
          "REQ_CANT_BE_RESOLVED") :=
  ⟨(c4_addressing_mismatch cfgFieldMode regHello "/x" ⟨.absent, [("name", "world")]⟩).1 rfl rfl,
   (c4_addressing_mismatch cfgPathMode regHello "/Hello" ⟨.strV "/Other", [("name", "world")]⟩).2
     rfl rfl⟩

/-- C5 counterexample: the claim reads the `Ptl` stripping as removing a
leading name-prefix token of the final path segment; the source regex
`Ptl(\w+)$` also strips a mid-segment occurrence, so the two algorithms
disagree at `MyPtlFoo.ts`. -/
theorem c5_counterexample :
    getPtlUrl "/p/" "/p/MyPtlFoo.ts" = some "MyFoo"
  ∧ resolveSpecNamePrefixOnly "/p/" "/p/MyPtlFoo.ts" = some "MyPtlFoo"
  ∧ getPtlUrl "/p/" "/p/MyPtlFoo.ts" ≠ resolveSpecNamePrefixOnly "/p/" "/p/MyPtlFoo.ts" :=
  ⟨by decide, by decide, by decide⟩

/-- C5 (amended): resolution equals the spec algorithm — require the root
prefix and the `.ts` suffix (after `.js` normalization) else fail, strip
both, replace backslashes with slashes, and strip the `Ptl` token at its
first occurrence that is followed by one or more word characters extending to
the end of the path; the function is a pure Lean function, so determinism and
idempotence of resolution are immediate, and it fails exactly when the
prefix/suffix requirement does not hold. -/
theorem c5_resolution_algorithm (root loc : String) :
    getPtlUrl root loc = resolveSpecFirst root loc
  ∧ (getPtlUrl root loc = none
      ↔ (strStartsWith (normalizeJsExt loc) root
          && strEndsWith (normalizeJsExt loc) ".ts") = false) := by
  constructor
  · exact getPtlUrl_eq_resolveSpecFirst root loc
  · unfold getPtlUrl
    cases h : (strStartsWith (normalizeJsExt loc) root
        && strEndsWith (normalizeJsExt loc) ".ts") <;> simp [h]

/-- C6: registering two descriptors that resolve to the same canonical path
never raises: the first registration returns the updated registry (with the
warning flag reflecting whether the path was already taken), the second
registration also returns (no error) with the warning flag `true`, and after
it the registry entry at that path holds the second protocol, handler, and
validator. -/
theorem c6_duplicate_last_write_wins (root : String)
    (gv : String → String → Args → ValidateResult) (reg : Registry)
    (p₁ p₂ : Protocol) (h₁ h₂ : Args → HandlerBehavior) (url : String)
    (hu₁ : getPtlUrl root p₁.filename = some url)
    (hu₂ : getPtlUrl root p₂.filename = some url) :
    implementPtl root gv reg p₁ h₁
      = some (regSet reg url ⟨p₁, h₁, gv ("Req" ++ p₁.name) (normalizeJsExt p₁.filename)⟩,
              (regLookup reg url).isSome)
  ∧ implementPtl root gv
      (regSet reg url ⟨p₁, h₁, gv ("Req" ++ p₁.name) (normalizeJsExt p₁.filename)⟩) p₂ h₂
      = some (regSet
          (regSet reg url ⟨p₁, h₁, gv ("Req" ++ p₁.name) (normalizeJsExt p₁.filename)⟩)
          url ⟨p₂, h₂, gv ("Req" ++ p₂.name) (normalizeJsExt p₂.filename)⟩, true)
  ∧ regLookup (regSet
        (regSet reg url ⟨p₁, h₁, gv ("Req" ++ p₁.name) (normalizeJsExt p₁.filename)⟩)
        url ⟨p₂, h₂, gv ("Req" ++ p₂.name) (normalizeJsExt p₂.filename)⟩) url
      = some ⟨p₂, h₂, gv ("Req" ++ p₂.name) (normalizeJsExt p₂.filename)⟩ := by
  refine ⟨by simp [implementPtl, hu₁], ?_, regLookup_regSet_self _ _ _⟩
  simp [implementPtl, hu₂, regLookup_regSet_self]

/-- C6 witness: `ptlHello` and `ptlDupB` both resolve to `/Hello`; registering
the second over the first warns and overwrites. -/
theorem c6_duplicate_last_write_wins_witness :
    implementPtl "/p" gvOk [] ptlHello handlerHello = some ([("/Hello", entryDupA)], false)
  ∧ implementPtl "/p" gvOk [("/Hello", entryDupA)] ptlDupB handlerThrowTyped
      = some ([("/Hello", entryDupB)], true)
  ∧ regLookup [("/Hello", entryDupB)] "/Hello" = some entryDupB :=
  c6_duplicate_last_write_wins "/p" gvOk [] ptlHello ptlDupB handlerHello handlerThrowTyped
    "/Hello" rfl rfl

/-- C7 counterexample: a request whose body failed to decode is answered with
the raw plain-text 400 payload `Invalid Request Body`, which is not a
success/error envelope. -/
theorem c7_counterexample :
    (processRequest cfgPathMode [] "/x" none).output = some (.raw 400 "Invalid Request Body")
  ∧ isEnvelope (.raw 400 "Invalid Request Body") = false :=
  ⟨rfl, rfl⟩

/-- C7 (amended): for every request whose body decoded successfully, anything
the pipeline writes is a well-formed success/error envelope — in particular
handler exceptions (typed or untyped) never escape the dispatcher, they are
converted to envelopes — while a request whose body failed to decode is
answered with the raw 400 plain-text payload `Invalid Request Body`. -/
theorem c7_envelope_except_decode_failure (cfg : ServerConfig) (reg : Registry)
    (reqPath : String) :
    (∀ args o, (processRequest cfg reg reqPath (some args)).output = some o →
        isEnvelope o = true)
  ∧ (processRequest cfg reg reqPath none).output = some (.raw 400 "Invalid Request Body") := by
  constructor
  · intro args o ho
    rcases hst : (addressingResolve cfg reqPath (some args)).args with _ | a
    · exact absurd hst (addressingResolve_args_ne_none cfg reqPath args)
    · exact finalApiHandler_output_envelope cfg reg _ a hst o ho
  · rfl

/-- C7 witness: a successful request writes an envelope; a decode failure
writes the raw 400. -/
theorem c7_envelope_except_decode_failure_witness :
    isEnvelope (.envSucc "Hello, world!") = true
  ∧ (processRequest cfgPathMode regHello "/x" none).output
      = some (.raw 400 "Invalid Request Body") :=
  ⟨(c7_envelope_except_decode_failure cfgPathMode regHello "/Hello").1 argsWorld
      (.envSucc "Hello, world!") rfl,
   (c7_envelope_except_decode_failure cfgPathMode regHello "/x").2⟩

/-- C8: in field-addressed mode a body carrying the reserved field with value
`/Hello` resolves the rpc url `/Hello`, strips the field from the arguments,
and the whole pipeline result equals that of the path-addressed request to
`/Hello` with the stripped body; in particular with a registered entry whose
validator passes and whose handler writes a success payload, the same success
envelope is produced. -/
theorem c8_field_addressed_equiv (reg : Registry) (reqPath : String)
    (fields : List (String × String)) :
    (addressingResolve cfgFieldMode reqPath (some ⟨.strV "/Hello", fields⟩)).rpcUrl
      = some "/Hello"
  ∧ (addressingResolve cfgFieldMode reqPath (some ⟨.strV "/Hello", fields⟩)).args
      = some ⟨.absent, fields⟩
  ∧ processRequest cfgFieldMode reg reqPath (some ⟨.strV "/Hello", fields⟩)
      = processRequest cfgPathMode reg "/Hello" (some ⟨.absent, fields⟩)
  ∧ (∀ entry p, regLookup reg "/Hello" = some entry →
      (entry.reqValidator ⟨.absent, fields⟩).isError = false →
      entry.handler ⟨.absent, fields⟩ = .retSucc p →
      (processRequest cfgFieldMode reg reqPath (some ⟨.strV "/Hello", fields⟩)).output
        = some (.envSucc p)) := by
  refine ⟨rfl, rfl, rfl, ?_⟩
  intro entry p hent hval hb
  have r := finalApiHandler_dispatch_eq cfgFieldMode reg
    (addressingResolve cfgFieldMode reqPath (some ⟨.strV "/Hello", fields⟩))
    ⟨.absent, fields⟩ entry rfl rfl hent hval
  rw [hb] at r
  show (finalApiHandler cfgFieldMode reg
    (addressingResolve cfgFieldMode reqPath (some ⟨.strV "/Hello", fields⟩))).output = _
  rw [r]

/-- C8 witness: the concrete field-addressed HelloWorld request succeeds with
the same envelope as the path-addressed one. -/
theorem c8_field_addressed_equiv_witness :
    (processRequest cfgFieldMode regHello "/whatever"
        (some ⟨.strV "/Hello", [("name", "world")]⟩)).output
      = some (.envSucc "Hello, world!") :=
  (c8_field_addressed_equiv regHello "/whatever" [("name", "world")]).2.2.2
    entryHello "Hello, world!" rfl rfl rfl

/-- C9: the completion hook fires exactly when the handler was dispatched: on
every pre-dispatch terminal outcome (decode failure, pre-check error,
unregistered path, validation failure) it does not fire, and once the handler
is dispatched it fires whatever the handler does (success or any throw). -/
theorem c9_complete_iff_dispatched (cfg : ServerConfig) (reg : Registry) (reqPath : String)
    (body : Option Args) :
    (processRequest cfg reg reqPath body).completeFired
      = (processRequest cfg reg reqPath body).handlerInvoked
  ∧ (body = none → (processRequest cfg reg reqPath body).completeFired = false)
  ∧ (∀ args msg info, (addressingResolve cfg reqPath body).args = some args →
      (addressingResolve cfg reqPath body).apiPreCheckError = some (msg, info) →
      (processRequest cfg reg reqPath body).completeFired = false)
  ∧ (∀ args, (addressingResolve cfg reqPath body).args = some args →
      (addressingResolve cfg reqPath body).apiPreCheckError = none →
      (addressingResolve cfg reqPath body).rpcUrl.bind (regLookup reg) = none →
      (processRequest cfg reg reqPath body).completeFired = false)
  ∧ (∀ args entry, (addressingResolve cfg reqPath body).args = some args →
      (addressingResolve cfg reqPath body).apiPreCheckError = none →
      (addressingResolve cfg reqPath body).rpcUrl.bind (regLookup reg) = some entry →
      (entry.reqValidator args).isError = true →
      (processRequest cfg reg reqPath body).completeFired = false)
  ∧ (∀ args entry, (addressingResolve cfg reqPath body).args = some args →
      (addressingResolve cfg reqPath body).apiPreCheckError = none →
      (addressingResolve cfg reqPath body).rpcUrl.bind (regLookup reg) = some entry →
      (entry.reqValidator args).isError = false →
      (processRequest cfg reg reqPath body).completeFired = true) := by
  refine ⟨finalApiHandler_complete_eq_invoked cfg reg _, ?_, ?_, ?_, ?_, ?_⟩
  · intro h
    subst h
    exact congrArg DispatchResult.completeFired (finalApiHandler_args_none cfg reg _ rfl)
  · intro args msg info hargs hpre
    exact congrArg DispatchResult.completeFired
      (finalApiHandler_precheck cfg reg _ args msg info hargs hpre)
  · intro args hargs hpre hurl
    exact congrArg DispatchResult.completeFired
      (finalApiHandler_notfound cfg reg _ args hargs hpre hurl)
  · intro args entry hargs hpre hurl hval
    exact congrArg DispatchResult.completeFired
      (finalApiHandler_invalid_param cfg reg _ args entry hargs hpre hurl hval)
  · intro args entry hargs hpre hurl hval
    have r := finalApiHandler_dispatch_eq cfg reg _ args entry hargs hpre hurl hval
    have := congrArg DispatchResult.completeFired r
    rcases hb : entry.handler args <;> rw [hb] at this <;> exact this

/-- C9 witness: each terminal condition at a concrete input, and a dispatched
request (with a throwing handler) where the completion hook fires. -/
theorem c9_complete_iff_dispatched_witness :
    (processRequest cfgPathMode regHello "/x" none).completeFired = false
  ∧ (processRequest cfgFieldMode regHello "/x" (some argsWorld)).completeFired = false
  ∧ (processRequest cfgPathMode regHello "/Nope" (some argsWorld)).completeFired = false
  ∧ (processRequest cfgPathMode [("/Hello", entryBadVal)] "/Hello"
      (some argsWorld)).completeFired = false
  ∧ (processRequest cfgPathMode [("/Hello", entryTyped)] "/Hello"
      (some argsWorld)).completeFired = true :=
  ⟨(c9_complete_iff_dispatched cfgPathMode regHello "/x" none).2.1 rfl,
   (c9_complete_iff_dispatched cfgFieldMode regHello "/x" (some argsWorld)).2.2.1
     argsWorld _ _ rfl rfl,
   (c9_complete_iff_dispatched cfgPathMode regHello "/Nope" (some argsWorld)).2.2.2.1
     argsWorld rfl rfl rfl,
   (c9_complete_iff_dispatched cfgPathMode [("/Hello", entryBadVal)] "/Hello"
     (some argsWorld)).2.2.2.2.1 argsWorld entryBadVal rfl rfl rfl rfl,
   (c9_complete_iff_dispatched cfgPathMode [("/Hello", entryTyped)] "/Hello"
     (some argsWorld)).2.2.2.2.2 argsWorld entryTyped rfl rfl rfl rfl⟩

/-- C10 counterexample: the source regex `Ptl(\w+)$` strips the first
(leftmost) qualifying occurrence, not the last: on a final segment `PtlXPtlY`
the code yields `XPtlY`, while stripping at the last occurrence would yield
`PtlXY`. -/
theorem c10_counterexample :
    getPtlUrl "/p/" "/p/PtlXPtlY.ts" = some "XPtlY"
  ∧ resolveSpecLast "/p/" "/p/PtlXPtlY.ts" = some "PtlXY"
  ∧ getPtlUrl "/p/" "/p/PtlXPtlY.ts" ≠ resolveSpecLast "/p/" "/p/PtlXPtlY.ts" :=
  ⟨by decide, by decide, by decide⟩

/-- C10 (amended): the `Ptl` replacement in path resolution acts at the first
(leftmost) occurrence of `Ptl` that is followed by one or more word
characters extending to the end of the path — not only when `Ptl` is the
segment's leading prefix: `MyPtlFoo.ts` resolves to `MyFoo`, while a final
segment that is exactly `Ptl` (no word characters after the token) is left
unchanged. -/
theorem c10_strip_first_occurrence :
    (∀ l : List Char, stripPtlAux l = stripPtlSpec l)
  ∧ getPtlUrl "/p/" "/p/MyPtlFoo.ts" = some "MyFoo"
  ∧ getPtlUrl "/p/" "/p/Ptl.ts" = some "Ptl" :=
  ⟨stripPtlAux_eq_spec, by decide, by decide⟩

end Tsrpc
